import Mathlib

/-!
# Block replica creation (core/block_replica.go)

A shallow embedding of `createReplica` and `createBlockReplica`.

* Go pointers are taken to be non-nil; `(value, error)` results of the two
  shapes the code returns (`nil, err` and `value, nil`) are `Except` values.
* `*big.Int` is `Int`; `uint64` is a `Nat` below `2^64`, produced by
  `bigUint64` (the `Uint64()` method of `big.Int`).
* Functions of other packages (rlp, rawdb, types, common) are the fields of
  `Externals` and `Database`; values whose inside the file never inspects are
  kept as raw content.
* The event feed is the list of the events sent so far, oldest first.
* `createReplica` also reports, in order, the store reads and the sender
  recoveries it performed.
-/

namespace BlockReplica

/-! ## Data model -/

/-- Byte strings. -/
abbrev Bytes := List Nat

/-- The type common.Hash. -/
abbrev Hash := Nat

/-- The type common.Address. -/
abbrev Address := Nat

/-- Go error values, by their message. -/
abbrev GoError := String

/-- The method Uint64 of big.Int: the low 64 bits of the absolute value. -/
def bigUint64 (x : Int) : Nat := x.natAbs % 2 ^ 64

/-- The type types.Header: the block number and the remaining fields. -/
structure Header where
  Number : Int
  content : Bytes
deriving DecidableEq, Repr

/-- The type types.Transaction. -/
structure Transaction where
  raw : Bytes
deriving DecidableEq, Repr

/-- The type types.TransactionExportRLP. -/
structure TransactionExportRLP where
  raw : Bytes
deriving DecidableEq, Repr

/-- The type types.Receipt. -/
structure Receipt where
  raw : Bytes
deriving DecidableEq, Repr

/-- The type types.ReceiptExportRLP. -/
structure ReceiptExportRLP where
  raw : Bytes
deriving DecidableEq, Repr

/-- The type types.StateSpecimen. -/
structure StateSpecimen where
  raw : Bytes
deriving DecidableEq, Repr

/-- The type params.ChainConfig: the chain id and the remaining (fork) settings. -/
structure ChainConfig where
  ChainID : Int
  forks : Bytes
deriving DecidableEq, Repr

/-- The type types.Block. -/
structure Block where
  header : Header
  transactions : List Transaction
  uncles : List Header
deriving DecidableEq, Repr

/-- A types.Signer value: what types.MakeSigner is given, a chain configuration
and a block number. -/
structure Signer where
  config : ChainConfig
  number : Int
deriving DecidableEq, Repr

/-- The type types.ExportBlockReplica. -/
structure ExportBlockReplica where
  Type_ : String
  NetworkId : Nat
  Hash : BlockReplica.Hash
  TotalDiff : Int
  Header : BlockReplica.Header
  Transactions : List TransactionExportRLP
  Uncles : List BlockReplica.Header
  Receipts : List ReceiptExportRLP
  Senders : List Address
  State : StateSpecimen
deriving DecidableEq, Repr

/-- The type BlockReplicationEvent. -/
structure BlockReplicationEvent where
  Hash : String
  Data : Bytes
deriving DecidableEq, Repr

/-- The key-value store behind bc.db, by the raw records the rawdb readers
return for a block hash and number. -/
structure Database where
  ReadTdRLP : Hash → Nat → Bytes
  ReadHeaderRLP : Hash → Nat → Bytes
  ReadReceiptsRLP : Hash → Nat → Bytes

/-- The fields of BlockChain the file uses. The feed is the list of the events
sent through it, oldest first. -/
structure BlockChain where
  db : Database
  chainConfig : ChainConfig
  blockReplicationFeed : List BlockReplicationEvent

/-- The functions of other packages that the file calls. -/
structure Externals where
  /-- The method Hash of types.Header. -/
  headerHash : Header → Hash
  /-- The method String of common.Hash. -/
  hashString : Hash → String
  /-- The call rlp.Decode into a big.Int. -/
  decodeTd : Bytes → Except GoError Int
  /-- The call rlp.Decode into a types.Header. -/
  decodeHeader : Bytes → Except GoError Header
  /-- The decoding of a stored receipts record inside rawdb. -/
  decodeReceipts : Bytes → Except GoError (List Receipt)
  /-- The function types.Sender. -/
  Sender : Signer → Transaction → Except GoError Address
  /-- The method ExportTx of types.TransactionForExport. -/
  ExportTx : Transaction → TransactionExportRLP
  /-- The method ExportReceipt of types.ReceiptForExport. -/
  ExportReceipt : Receipt → ReceiptExportRLP
  /-- The function rlp.EncodeToBytes on a replica. -/
  EncodeToBytes : ExportBlockReplica → Except GoError Bytes

/-- The function types.MakeSigner. -/
def MakeSigner (config : ChainConfig) (blockNumber : Int) : Signer :=
  ⟨config, blockNumber⟩

/-- The method Hash of types.Block: the hash of its header. -/
def Block.Hash (E : Externals) (b : Block) : Hash := E.headerHash b.header

/-- The method Number of types.Block. -/
def Block.Number (b : Block) : Int := b.header.Number

/-- The method NumberU64 of types.Block. -/
def Block.NumberU64 (b : Block) : Nat := bigUint64 b.header.Number

/-- The method Transactions of types.Block. -/
def Block.Transactions (b : Block) : List Transaction := b.transactions

/-- The method Uncles of types.Block. -/
def Block.Uncles (b : Block) : List Header := b.uncles

/-- Modelled from the spec: rawdb.ReadRawReceipts is not in the source file.
The reader of the spec decodes the stored receipts record of the block; the
call site in createReplica receives a bare slice and no error value, so a
record that is missing or does not decode reaches createReplica as the empty
slice. -/
def ReadRawReceipts (E : Externals) (db : Database) (hash : Hash) (number : Nat) :
    List Receipt :=
  match E.decodeReceipts (db.ReadReceiptsRLP hash number) with
  | .ok receipts => receipts
  | .error _ => []

/-- What createReplica did to the store and to the signature recoverer. -/
inductive Access where
  | readTd (hash : Hash) (number : Nat)
  | readHeader (hash : Hash) (number : Nat)
  | readReceipts (hash : Hash) (number : Nat)
  | sender (tx : Transaction)
deriving DecidableEq, Repr

/-- The result of a run: the accesses performed, in order, and the returned
value or error. -/
structure Run (α : Type) where
  accesses : List Access
  result : Except GoError α

/-! ## The operations -/

/-- The senders loop of createReplica (lines 85-92): the remaining
transactions, the senders appended so far, the accesses so far. -/
def sendersLoop (E : Externals) (signer : Signer) :
    List Transaction → List Address → List Access → Run (List Address)
  | [], senders, acc => ⟨acc, .ok senders⟩
  | tx :: rest, senders, acc =>
    match E.Sender signer tx with
    | .error err => ⟨acc ++ [Access.sender tx], .error err⟩
    | .ok sender => sendersLoop E signer rest (senders ++ [sender]) (acc ++ [Access.sender tx])

/-- The method createReplica of BlockChain. -/
def createReplica (E : Externals) (bc : BlockChain) (block : Block) (config : ChainConfig)
    (stateSpecimen : StateSpecimen) : Run ExportBlockReplica :=
  let bHash := block.Hash E
  let bNum := block.NumberU64
  -- totalDifficulty
  let tdRLP := bc.db.ReadTdRLP bHash bNum
  match E.decodeTd tdRLP with
  | .error err => ⟨[Access.readTd bHash bNum], .error err⟩
  | .ok td =>
    -- header
    let headerRLP := bc.db.ReadHeaderRLP bHash bNum
    match E.decodeHeader headerRLP with
    | .error err => ⟨[Access.readTd bHash bNum, Access.readHeader bHash bNum], .error err⟩
    | .ok header =>
      -- transactions
      let txsRlp := block.Transactions.map E.ExportTx
      -- receipts
      let receipts := ReadRawReceipts E bc.db bHash bNum
      let receiptsRlp := receipts.map E.ExportReceipt
      -- senders
      let signer := MakeSigner bc.chainConfig block.Number
      let loop := sendersLoop E signer block.Transactions []
        [Access.readTd bHash bNum, Access.readHeader bHash bNum, Access.readReceipts bHash bNum]
      match loop.result with
      | .error err => ⟨loop.accesses, .error err⟩
      | .ok senders =>
        -- uncles
        let uncles := block.Uncles
        ⟨loop.accesses, .ok
          { Type_ := "block-replica"
            NetworkId := bigUint64 config.ChainID
            Hash := bHash
            TotalDiff := td
            Header := header
            Transactions := txsRlp
            Uncles := uncles
            Receipts := receiptsRlp
            Senders := senders
            State := stateSpecimen }⟩

/-- The method createBlockReplica of BlockChain: the chain after the call and
the returned error, if any. -/
def createBlockReplica (E : Externals) (bc : BlockChain) (block : Block) (config : ChainConfig)
    (stateSpecimen : StateSpecimen) : BlockChain × Option GoError :=
  match (createReplica E bc block config stateSpecimen).result with
  | .error err => (bc, some err)
  | .ok exportBlockReplica =>
    match E.EncodeToBytes exportBlockReplica with
    | .error err => (bc, some err)
    | .ok blockReplicaRLP =>
      let sHash := E.hashString (block.Hash E)
      ({ bc with blockReplicationFeed :=
          bc.blockReplicationFeed ++ [⟨sHash, blockReplicaRLP⟩] }, none)

/-! ## A small concrete setting

Toy stand-ins for the external functions, used to evaluate the operations on
concrete inputs. A transaction is the pair of the chain id it was signed for
and its sender; a record is decoded byte by byte. -/

/-- A toy header hash. -/
def demoHeaderHash (h : Header) : Hash := h.Number.natAbs + h.content.sum

/-- A toy total-difficulty decoder: one byte below 128 is the number itself. -/
def demoDecodeTd : Bytes → Except GoError Int
  | [] => .error "EOF"
  | [b] => if b < 128 then .ok (Int.ofNat b) else .error "rlp: expected integer"
  | _ => .error "rlp: input too long"

/-- A toy header decoder: the number, then one byte of content. -/
def demoDecodeHeader : Bytes → Except GoError Header
  | [] => .error "EOF"
  | [n, c] => .ok ⟨Int.ofNat n, [c]⟩
  | _ => .error "rlp: bad header"

/-- A toy receipts decoder: the list marker 192, then one byte per receipt. -/
def demoDecodeReceipts : Bytes → Except GoError (List Receipt)
  | [] => .error "EOF"
  | b :: rest => if b = 192 then .ok (rest.map fun x => ⟨[x]⟩) else .error "rlp: expected list"

/-- A toy sender recovery: the transaction [c, a] was signed by a for chain c. -/
def demoSender (signer : Signer) (tx : Transaction) : Except GoError Address :=
  match tx.raw with
  | [c, a] => if Int.ofNat c = signer.config.ChainID then .ok a
              else .error "invalid chain id for signer"
  | _ => .error "invalid transaction v, r, s values"

/-- A toy replica encoder. -/
def demoEncode (r : ExportBlockReplica) : Except GoError Bytes :=
  .ok (r.NetworkId :: r.Hash :: r.Senders)

/-- The toy externals. -/
def demo : Externals where
  headerHash := demoHeaderHash
  hashString := fun h => String.mk (List.replicate h 'x')
  decodeTd := demoDecodeTd
  decodeHeader := demoDecodeHeader
  decodeReceipts := demoDecodeReceipts
  Sender := demoSender
  ExportTx := fun tx => ⟨tx.raw⟩
  ExportReceipt := fun r => ⟨r.raw⟩
  EncodeToBytes := demoEncode

/-- The header of the sample block: number 3, hash 3 + 4 = 7. -/
def demoHeader : Header := ⟨3, [4]⟩

/-- A store with the same three records under every key. -/
def demoDb (td header receipts : Bytes) : Database where
  ReadTdRLP := fun _ _ => td
  ReadHeaderRLP := fun _ _ => header
  ReadReceiptsRLP := fun _ _ => receipts

/-- A chain over a store, configured for the given chain id, nothing sent yet. -/
def demoChain (db : Database) (chainId : Int) : BlockChain := ⟨db, ⟨chainId, []⟩, []⟩

/-- The sample block with the given transactions and no uncles. -/
def demoBlock (txs : List Transaction) : Block := ⟨demoHeader, txs, []⟩

/-- A store that holds the sample block with n receipts. -/
def demoGoodDb (n : Nat) : Database := demoDb [9] [3, 4] (192 :: List.replicate n 1)

/-! ## The senders loop -/

/-- The loop succeeds exactly with the senders so far followed by one recovered
sender per remaining transaction, in order. -/
theorem sendersLoop_ok (E : Externals) (signer : Signer) :
    ∀ (txs : List Transaction) (senders : List Address) (acc : List Access)
      (out : List Address),
      (sendersLoop E signer txs senders acc).result = .ok out →
      ∃ l, out = senders ++ l ∧
        List.Forall₂ (fun tx a => E.Sender signer tx = .ok a) txs l := by
  intro txs
  induction txs with
  | nil =>
    intro senders acc out h
    simp only [sendersLoop, Except.ok.injEq] at h
    exact ⟨[], by simp [h], List.Forall₂.nil⟩
  | cons tx rest ih =>
    intro senders acc out h
    simp only [sendersLoop] at h
    cases hs : E.Sender signer tx with
    | error err => simp [hs] at h
    | ok a =>
      simp only [hs] at h
      obtain ⟨l, hl, hall⟩ := ih _ _ _ h
      exact ⟨a :: l, by simp [hl], List.Forall₂.cons hs hall⟩

/-- When every transaction recovers, the loop returns the senders in order. -/
theorem sendersLoop_of_all_ok (E : Externals) (signer : Signer) :
    ∀ (txs : List Transaction) (l : List Address) (senders : List Address)
      (acc : List Access),
      List.Forall₂ (fun tx a => E.Sender signer tx = .ok a) txs l →
      (sendersLoop E signer txs senders acc).result = .ok (senders ++ l) := by
  intro txs l senders acc h
  induction h generalizing senders acc with
  | nil => simp [sendersLoop]
  | cons hs _ ih =>
    simp only [sendersLoop, hs]
    rw [ih]
    simp

/-- The loop fails with the error of the lowest-index transaction that does not
recover. -/
theorem sendersLoop_first_error (E : Externals) (signer : Signer) (err : GoError) :
    ∀ (txs : List Transaction) (i : Nat) (senders : List Address) (acc : List Access),
      (∀ j, j < i → ∃ tx a, txs[j]? = some tx ∧ E.Sender signer tx = .ok a) →
      (∃ tx, txs[i]? = some tx ∧ E.Sender signer tx = .error err) →
      (sendersLoop E signer txs senders acc).result = .error err := by
  intro txs
  induction txs with
  | nil =>
    intro i senders acc _ hfail
    obtain ⟨tx, htx, _⟩ := hfail
    simp at htx
  | cons tx rest ih =>
    intro i senders acc hpre hfail
    cases i with
    | zero =>
      obtain ⟨t, ht, hs⟩ := hfail
      simp only [List.getElem?_cons_zero, Option.some.injEq] at ht
      subst ht
      simp [sendersLoop, hs]
    | succ k =>
      obtain ⟨t, a, ht, hs⟩ := hpre 0 (Nat.succ_pos k)
      simp only [List.getElem?_cons_zero, Option.some.injEq] at ht
      subst ht
      simp only [sendersLoop, hs]
      apply ih k
      · intro j hj
        have := hpre (j + 1) (Nat.succ_lt_succ hj)
        simpa using this
      · simpa using hfail

/-- An error of the loop is the error of some transaction of the block. -/
theorem sendersLoop_error (E : Externals) (signer : Signer) :
    ∀ (txs : List Transaction) (senders : List Address) (acc : List Access) (err : GoError),
      (sendersLoop E signer txs senders acc).result = .error err →
      ∃ tx ∈ txs, E.Sender signer tx = .error err := by
  intro txs
  induction txs with
  | nil =>
    intro senders acc err h
    simp [sendersLoop] at h
  | cons tx rest ih =>
    intro senders acc err h
    simp only [sendersLoop] at h
    cases hs : E.Sender signer tx with
    | error e =>
      simp only [hs, Except.error.injEq] at h
      exact ⟨tx, List.mem_cons_self _ _, by rw [hs, h]⟩
    | ok a =>
      simp only [hs] at h
      obtain ⟨t, ht, hts⟩ := ih _ _ _ h
      exact ⟨t, List.mem_cons_of_mem _ ht, hts⟩

/-! ## The shape of createReplica -/

/-- A returned replica comes from the path on which both records decoded and the
senders loop succeeded; its fields are the ones of lines 98-109. -/
theorem createReplica_ok (E : Externals) (bc : BlockChain) (block : Block)
    (config : ChainConfig) (stateSpecimen : StateSpecimen) (r : ExportBlockReplica)
    (h : (createReplica E bc block config stateSpecimen).result = .ok r) :
    ∃ td header senders,
      E.decodeTd (bc.db.ReadTdRLP (block.Hash E) block.NumberU64) = .ok td ∧
      E.decodeHeader (bc.db.ReadHeaderRLP (block.Hash E) block.NumberU64) = .ok header ∧
      List.Forall₂ (fun tx a => E.Sender (MakeSigner bc.chainConfig block.Number) tx = .ok a)
        block.Transactions senders ∧
      r = { Type_ := "block-replica"
            NetworkId := bigUint64 config.ChainID
            Hash := block.Hash E
            TotalDiff := td
            Header := header
            Transactions := block.Transactions.map E.ExportTx
            Uncles := block.Uncles
            Receipts := (ReadRawReceipts E bc.db (block.Hash E) block.NumberU64).map
              E.ExportReceipt
            Senders := senders
            State := stateSpecimen } := by
  unfold createReplica at h
  simp only at h
  split at h
  · simp at h
  · rename_i td htd
    split at h
    · simp at h
    · rename_i header hh
      split at h
      · simp at h
      · rename_i senders hloop
        obtain ⟨l, hl, hall⟩ := sendersLoop_ok E _ _ _ _ _ hloop
        simp only [List.nil_append] at hl
        subst hl
        simp only [Except.ok.injEq] at h
        exact ⟨td, header, senders, htd, hh, hall, h.symm⟩

/-- When both records decode and every transaction recovers, createReplica
returns the replica of lines 98-109, whatever the receipts record holds. -/
theorem createReplica_of_ok (E : Externals) (bc : BlockChain) (block : Block)
    (config : ChainConfig) (stateSpecimen : StateSpecimen) (td : Int) (header : Header)
    (senders : List Address)
    (htd : E.decodeTd (bc.db.ReadTdRLP (block.Hash E) block.NumberU64) = .ok td)
    (hh : E.decodeHeader (bc.db.ReadHeaderRLP (block.Hash E) block.NumberU64) = .ok header)
    (hs : List.Forall₂
      (fun tx a => E.Sender (MakeSigner bc.chainConfig block.Number) tx = .ok a)
      block.Transactions senders) :
    (createReplica E bc block config stateSpecimen).result = .ok
      { Type_ := "block-replica"
        NetworkId := bigUint64 config.ChainID
        Hash := block.Hash E
        TotalDiff := td
        Header := header
        Transactions := block.Transactions.map E.ExportTx
        Uncles := block.Uncles
        Receipts := (ReadRawReceipts E bc.db (block.Hash E) block.NumberU64).map
          E.ExportReceipt
        Senders := senders
        State := stateSpecimen } := by
  have hloop := sendersLoop_of_all_ok E (MakeSigner bc.chainConfig block.Number)
    block.Transactions senders []
    [Access.readTd (block.Hash E) block.NumberU64,
     Access.readHeader (block.Hash E) block.NumberU64,
     Access.readReceipts (block.Hash E) block.NumberU64] hs
  simp only [List.nil_append] at hloop
  unfold createReplica
  simp only [htd, hh, hloop]

/-- createReplica returns a replica exactly when the total-difficulty record
decodes, the header record decodes and every transaction recovers under the
signer of the chain; the receipts record plays no part. -/
theorem createReplica_ok_iff (E : Externals) (bc : BlockChain) (block : Block)
    (config : ChainConfig) (stateSpecimen : StateSpecimen) :
    (∃ r, (createReplica E bc block config stateSpecimen).result = .ok r) ↔
      (∃ td, E.decodeTd (bc.db.ReadTdRLP (block.Hash E) block.NumberU64) = .ok td) ∧
      (∃ header,
        E.decodeHeader (bc.db.ReadHeaderRLP (block.Hash E) block.NumberU64) = .ok header) ∧
      (∃ senders, List.Forall₂
        (fun tx a => E.Sender (MakeSigner bc.chainConfig block.Number) tx = .ok a)
        block.Transactions senders) := by
  constructor
  · rintro ⟨r, h⟩
    obtain ⟨td, header, senders, htd, hh, hs, _⟩ :=
      createReplica_ok E bc block config stateSpecimen r h
    exact ⟨⟨td, htd⟩, ⟨header, hh⟩, ⟨senders, hs⟩⟩
  · rintro ⟨⟨td, htd⟩, ⟨header, hh⟩, ⟨senders, hs⟩⟩
    exact ⟨_, createReplica_of_ok E bc block config stateSpecimen td header senders htd hh hs⟩

/-! ## The claims -/

/-- C1, evaluated where the claim and the code part: the stored receipts record
[255] does not decode, the total difficulty, the header and the only signature
are fine, and createReplica returns a replica (with no receipts) instead of an
error. -/
theorem createReplica_undecodable_receipts :
    demo.decodeReceipts
        ((demoDb [9] [3, 4] [255]).ReadReceiptsRLP ((demoBlock [⟨[1, 77]⟩]).Hash demo)
          (demoBlock [⟨[1, 77]⟩]).NumberU64) = .error "rlp: expected list" ∧
      (createReplica demo (demoChain (demoDb [9] [3, 4] [255]) 1) (demoBlock [⟨[1, 77]⟩])
          ⟨1, []⟩ ⟨[]⟩).result = .ok
        { Type_ := "block-replica"
          NetworkId := 1
          Hash := 7
          TotalDiff := 9
          Header := ⟨3, [4]⟩
          Transactions := [⟨[1, 77]⟩]
          Uncles := []
          Receipts := []
          Senders := [77]
          State := ⟨[]⟩ } := by
  constructor <;> rfl

/-- C2 as stated fails: the block has one transaction, the stored receipts
record decodes to zero receipts, and the returned replica has one transaction,
one sender and no receipt. -/
theorem createReplica_lengths_counterexample :
    demo.decodeReceipts [192] = .ok [] ∧
      ∃ r, (createReplica demo (demoChain (demoGoodDb 0) 1) (demoBlock [⟨[1, 77]⟩])
          ⟨1, []⟩ ⟨[]⟩).result = .ok r ∧
        r.Transactions.length = 1 ∧ r.Senders.length = 1 ∧ r.Receipts.length = 0 ∧
        ¬ (r.Transactions.length = r.Receipts.length ∧
           r.Receipts.length = r.Senders.length) := by
  refine ⟨rfl, _, rfl, ?_⟩
  decide

/-- C2, amended: in every returned replica Transactions and Senders both have
the length of the transaction list of the block, and Receipts has the length
of the list the stored receipts record decodes to; the three lengths agree
exactly when that list is as long as the transaction list. -/
theorem createReplica_lengths (E : Externals) (bc : BlockChain) (block : Block)
    (config : ChainConfig) (stateSpecimen : StateSpecimen) (r : ExportBlockReplica)
    (h : (createReplica E bc block config stateSpecimen).result = .ok r) :
    r.Transactions.length = block.Transactions.length ∧
      r.Senders.length = block.Transactions.length ∧
      ∀ receipts,
        E.decodeReceipts (bc.db.ReadReceiptsRLP (block.Hash E) block.NumberU64)
          = .ok receipts →
        r.Receipts.length = receipts.length ∧
        ((r.Transactions.length = r.Receipts.length ∧
            r.Receipts.length = r.Senders.length) ↔
          receipts.length = block.Transactions.length) := by
  obtain ⟨td, header, senders, _, _, hs, rfl⟩ :=
    createReplica_ok E bc block config stateSpecimen r h
  have hlen := hs.length_eq
  refine ⟨by simp, hlen.symm, ?_⟩
  intro receipts hr
  simp only [ReadRawReceipts, hr, List.length_map]
  refine ⟨trivial, ?_⟩
  constructor
  · rintro ⟨h1, _⟩
    exact h1.symm
  · intro h1
    exact ⟨h1.symm, h1.trans hlen⟩

/-- Witness for createReplica_lengths: a block of two transactions over a store
with two receipts. -/
theorem createReplica_lengths_witness :
    ∃ r, (createReplica demo (demoChain (demoGoodDb 2) 1)
        (demoBlock [⟨[1, 77]⟩, ⟨[1, 78]⟩]) ⟨1, []⟩ ⟨[]⟩).result = .ok r ∧
      r.Transactions.length = 2 ∧ r.Senders.length = 2 ∧ r.Receipts.length = 2 :=
  have h := createReplica_lengths demo (demoChain (demoGoodDb 2) 1)
    (demoBlock [⟨[1, 77]⟩, ⟨[1, 78]⟩]) ⟨1, []⟩ ⟨[]⟩ _ rfl
  ⟨_, rfl, h.1, h.2.1, (h.2.2 _ rfl).1⟩

/-- C3: in every returned replica Senders and Transactions have the length of
the transaction list of the block, and at every index i below it Senders[i] is
the address recovered from the i-th transaction by the signer for the number
of the block, and Transactions[i] is the export projection of that same
transaction. -/
theorem createReplica_senders_aligned (E : Externals) (bc : BlockChain) (block : Block)
    (config : ChainConfig) (stateSpecimen : StateSpecimen) (r : ExportBlockReplica)
    (h : (createReplica E bc block config stateSpecimen).result = .ok r) :
    r.Senders.length = block.Transactions.length ∧
      r.Transactions.length = block.Transactions.length ∧
      ∀ (i : Nat) (tx : Transaction), block.Transactions[i]? = some tx →
        (∃ a, r.Senders[i]? = some a ∧
          E.Sender (MakeSigner bc.chainConfig block.Number) tx = .ok a) ∧
        r.Transactions[i]? = some (E.ExportTx tx) := by
  obtain ⟨td, header, senders, _, _, hs, rfl⟩ :=
    createReplica_ok E bc block config stateSpecimen r h
  refine ⟨hs.length_eq.symm, by simp, ?_⟩
  intro i tx htx
  constructor
  · have hi : i < block.Transactions.length := by
      by_contra hcon
      rw [List.getElem?_eq_none (Nat.le_of_not_lt hcon)] at htx
      cases htx
    have hi2 : i < senders.length := hs.length_eq ▸ hi
    refine ⟨senders[i], List.getElem?_eq_getElem hi2, ?_⟩
    have hget := List.forall₂_iff_get.1 hs
    have := hget.2 i hi hi2
    rw [List.getElem?_eq_getElem hi] at htx
    cases htx
    simpa using this
  · simp [htx]

/-- Witness for createReplica_senders_aligned: two transactions, the second one
at index 1. -/
theorem createReplica_senders_aligned_witness :
    ∃ r, (createReplica demo (demoChain (demoGoodDb 2) 1)
        (demoBlock [⟨[1, 77]⟩, ⟨[1, 78]⟩]) ⟨1, []⟩ ⟨[]⟩).result = .ok r ∧
      r.Senders.length = 2 ∧ r.Transactions.length = 2 ∧
      (∃ a, r.Senders[1]? = some a ∧
        demo.Sender (MakeSigner ⟨1, []⟩ 3) ⟨[1, 78]⟩ = .ok a) ∧
      r.Transactions[1]? = some (demo.ExportTx ⟨[1, 78]⟩) :=
  have h := createReplica_senders_aligned demo (demoChain (demoGoodDb 2) 1)
    (demoBlock [⟨[1, 77]⟩, ⟨[1, 78]⟩]) ⟨1, []⟩ ⟨[]⟩ _ rfl
  ⟨_, rfl, h.1, h.2.1, h.2.2 1 ⟨[1, 78]⟩ rfl⟩

/-- C4 as stated fails: were the returned error to identify the offending
transaction, some function of the error would yield it; over two blocks whose
lowest failing transactions differ (index 0 of one, index 1 of the other)
createReplica returns the same error, so no such function exists. -/
theorem createReplica_error_identifies_counterexample :
    ¬ ∃ ident : GoError → Nat × Transaction,
      ∀ block ∈ [demoBlock [⟨[2, 77]⟩], demoBlock [⟨[1, 5]⟩, ⟨[2, 78]⟩]],
      ∀ (i : Nat) (tx : Transaction) (err : GoError),
        block.Transactions[i]? = some tx →
        (∀ j, j < i → ∃ t a, block.Transactions[j]? = some t ∧
          demo.Sender (MakeSigner ⟨1, []⟩ block.Number) t = .ok a) →
        demo.Sender (MakeSigner ⟨1, []⟩ block.Number) tx = .error err →
        (createReplica demo (demoChain (demoGoodDb 1) 1) block ⟨1, []⟩ ⟨[]⟩).result
            = .error err ∧
          ident err = (i, tx) := by
  rintro ⟨ident, h⟩
  have h1 := h (demoBlock [⟨[2, 77]⟩]) (by simp) 0 ⟨[2, 77]⟩
    "invalid chain id for signer" rfl (by intro j hj; omega) rfl
  have h2 := h (demoBlock [⟨[1, 5]⟩, ⟨[2, 78]⟩]) (by simp) 1 ⟨[2, 78]⟩
    "invalid chain id for signer" rfl
    (by
      intro j hj
      have hj0 : j = 0 := by omega
      subst hj0
      exact ⟨⟨[1, 5]⟩, 5, rfl, rfl⟩) rfl
  have := h1.2.symm.trans h2.2
  exact absurd this (by decide)

/-- C4, amended: when the total difficulty and the header decode and the
transaction at index i is the lowest one whose sender recovery fails,
createReplica returns no replica and exactly the error that the recovery of
that transaction returned, unchanged; nothing recovered before it is
returned. -/
theorem createReplica_first_sender_error (E : Externals) (bc : BlockChain) (block : Block)
    (config : ChainConfig) (stateSpecimen : StateSpecimen) (td : Int) (header : Header)
    (i : Nat) (tx : Transaction) (err : GoError)
    (htd : E.decodeTd (bc.db.ReadTdRLP (block.Hash E) block.NumberU64) = .ok td)
    (hh : E.decodeHeader (bc.db.ReadHeaderRLP (block.Hash E) block.NumberU64) = .ok header)
    (htx : block.Transactions[i]? = some tx)
    (hpre : ∀ j, j < i → ∃ t a, block.Transactions[j]? = some t ∧
      E.Sender (MakeSigner bc.chainConfig block.Number) t = .ok a)
    (hfail : E.Sender (MakeSigner bc.chainConfig block.Number) tx = .error err) :
    (createReplica E bc block config stateSpecimen).result = .error err := by
  have hloop := sendersLoop_first_error E (MakeSigner bc.chainConfig block.Number) err
    block.Transactions i []
    [Access.readTd (block.Hash E) block.NumberU64,
     Access.readHeader (block.Hash E) block.NumberU64,
     Access.readReceipts (block.Hash E) block.NumberU64] hpre ⟨tx, htx, hfail⟩
  unfold createReplica
  simp only [htd, hh, hloop]

/-- Witness for createReplica_first_sender_error: the second of three
transactions is the first to fail. -/
theorem createReplica_first_sender_error_witness :
    (createReplica demo (demoChain (demoGoodDb 3) 1)
        (demoBlock [⟨[1, 5]⟩, ⟨[2, 78]⟩, ⟨[7]⟩]) ⟨1, []⟩ ⟨[]⟩).result
      = .error "invalid chain id for signer" :=
  createReplica_first_sender_error demo (demoChain (demoGoodDb 3) 1)
    (demoBlock [⟨[1, 5]⟩, ⟨[2, 78]⟩, ⟨[7]⟩]) ⟨1, []⟩ ⟨[]⟩ 9 ⟨3, [4]⟩ 1 ⟨[2, 78]⟩
    "invalid chain id for signer" rfl rfl rfl
    (by
      intro j hj
      have hj0 : j = 0 := by omega
      subst hj0
      exact ⟨⟨[1, 5]⟩, 5, rfl, rfl⟩)
    rfl

/-- C5: with the feed as the list of sent events, createBlockReplica returns the
error of createReplica or of the encoding and leaves the feed as it was when
either fails; when both succeed it appends exactly one event, whose Hash is the
string form of the hash of the block and whose Data is the encoding of the
assembled replica, and returns no error. -/
theorem createBlockReplica_feed (E : Externals) (bc : BlockChain) (block : Block)
    (config : ChainConfig) (stateSpecimen : StateSpecimen) :
    (∀ err, (createReplica E bc block config stateSpecimen).result = .error err →
        createBlockReplica E bc block config stateSpecimen = (bc, some err)) ∧
      (∀ r err, (createReplica E bc block config stateSpecimen).result = .ok r →
        E.EncodeToBytes r = .error err →
        createBlockReplica E bc block config stateSpecimen = (bc, some err)) ∧
      (∀ r data, (createReplica E bc block config stateSpecimen).result = .ok r →
        E.EncodeToBytes r = .ok data →
        createBlockReplica E bc block config stateSpecimen =
          ({ bc with blockReplicationFeed :=
              bc.blockReplicationFeed ++ [⟨E.hashString (block.Hash E), data⟩] }, none)) := by
  refine ⟨?_, ?_, ?_⟩
  · intro err h
    simp only [createBlockReplica, h]
  · intro r err h he
    simp only [createBlockReplica, h, he]
  · intro r data h he
    simp only [createBlockReplica, h, he]

/-- Witness for createBlockReplica_feed: one event is sent for the sample block,
and an undecodable header sends none. -/
theorem createBlockReplica_feed_witness :
    (createBlockReplica demo (demoChain (demoGoodDb 1) 1) (demoBlock [⟨[1, 77]⟩])
        ⟨1, []⟩ ⟨[]⟩).1.blockReplicationFeed = [⟨"xxxxxxx", [1, 7, 77]⟩] ∧
      (createBlockReplica demo (demoChain (demoDb [9] [] [192]) 1) (demoBlock [⟨[1, 77]⟩])
        ⟨1, []⟩ ⟨[]⟩).1.blockReplicationFeed = [] :=
  have h := createBlockReplica_feed demo (demoChain (demoGoodDb 1) 1)
    (demoBlock [⟨[1, 77]⟩]) ⟨1, []⟩ ⟨[]⟩
  have h0 := createBlockReplica_feed demo (demoChain (demoDb [9] [] [192]) 1)
    (demoBlock [⟨[1, 77]⟩]) ⟨1, []⟩ ⟨[]⟩
  ⟨congrArg (fun p => p.1.blockReplicationFeed) (h.2.2 _ _ rfl rfl),
   congrArg (fun p => p.1.blockReplicationFeed) (h0.1 "EOF" rfl)⟩

/-- C6, evaluated where the claim and the code part: the chain is configured
for chain id 1 and the call passes a configuration for chain id 5. The
transaction signed for chain 5 recovers under the signer of the argument, yet
createReplica fails; the transaction signed for chain 1 does not recover under
the signer of the argument, yet createReplica returns its sender, next to the
network id 5 of the argument. -/
theorem createReplica_signer_not_from_argument :
    demo.Sender (MakeSigner ⟨5, []⟩ (demoBlock [⟨[5, 77]⟩]).Number) ⟨[5, 77]⟩ = .ok 77 ∧
      (createReplica demo (demoChain (demoGoodDb 1) 1) (demoBlock [⟨[5, 77]⟩])
          ⟨5, []⟩ ⟨[]⟩).result = .error "invalid chain id for signer" ∧
      demo.Sender (MakeSigner ⟨5, []⟩ (demoBlock [⟨[1, 77]⟩]).Number) ⟨[1, 77]⟩
        = .error "invalid chain id for signer" ∧
      (createReplica demo (demoChain (demoGoodDb 1) 1) (demoBlock [⟨[1, 77]⟩])
          ⟨5, []⟩ ⟨[]⟩).result = .ok
        { Type_ := "block-replica"
          NetworkId := 5
          Hash := 7
          TotalDiff := 9
          Header := ⟨3, [4]⟩
          Transactions := [⟨[1, 77]⟩]
          Uncles := []
          Receipts := [⟨[1]⟩]
          Senders := [77]
          State := ⟨[]⟩ } := by
  refine ⟨rfl, rfl, rfl, rfl⟩

/-- C7 as stated fails: for the chain id 2^64 the NetworkId of the returned
replica is 0, not the chain id. -/
theorem createReplica_networkId_counterexample :
    ∃ r, (createReplica demo (demoChain (demoGoodDb 1) 1) (demoBlock [⟨[1, 77]⟩])
        ⟨18446744073709551616, []⟩ ⟨[]⟩).result = .ok r ∧
      r.NetworkId = 0 ∧
      (r.NetworkId : Int) ≠ (⟨18446744073709551616, []⟩ : ChainConfig).ChainID := by
  refine ⟨_, rfl, ?_, ?_⟩ <;> decide

/-- C7, amended: in every returned replica Type is "block-replica", NetworkId is
the unsigned 64-bit value of the chain id of the config argument (the chain id
itself when it lies between 0 and 2^64 - 1), Hash is the hash of the block,
Uncles is the uncle list of the block, unmodified, and State is the supplied
state specimen. -/
theorem createReplica_fields (E : Externals) (bc : BlockChain) (block : Block)
    (config : ChainConfig) (stateSpecimen : StateSpecimen) (r : ExportBlockReplica)
    (h : (createReplica E bc block config stateSpecimen).result = .ok r) :
    r.Type_ = "block-replica" ∧
      r.NetworkId = bigUint64 config.ChainID ∧
      (0 ≤ config.ChainID → config.ChainID < 2 ^ 64 → (r.NetworkId : Int) = config.ChainID) ∧
      r.Hash = block.Hash E ∧
      r.Uncles = block.Uncles ∧
      r.State = stateSpecimen := by
  obtain ⟨td, header, senders, _, _, _, rfl⟩ :=
    createReplica_ok E bc block config stateSpecimen r h
  refine ⟨rfl, rfl, ?_, rfl, rfl, rfl⟩
  intro h0 h1
  simp only [bigUint64]
  have hlt : config.ChainID.natAbs < 2 ^ 64 := by omega
  rw [Nat.mod_eq_of_lt hlt]
  omega

/-- Witness for createReplica_fields: chain id 5, one uncle, a state specimen. -/
theorem createReplica_fields_witness :
    ∃ r, (createReplica demo (demoChain (demoGoodDb 1) 1) ⟨demoHeader, [⟨[1, 77]⟩], [⟨2, [8]⟩]⟩
        ⟨5, []⟩ ⟨[6]⟩).result = .ok r ∧
      r.Type_ = "block-replica" ∧ (r.NetworkId : Int) = 5 ∧ r.Hash = 7 ∧
      r.Uncles = [⟨2, [8]⟩] ∧ r.State = ⟨[6]⟩ :=
  have h := createReplica_fields demo (demoChain (demoGoodDb 1) 1)
    ⟨demoHeader, [⟨[1, 77]⟩], [⟨2, [8]⟩]⟩ ⟨5, []⟩ ⟨[6]⟩ _ rfl
  ⟨_, rfl, h.1, h.2.2.1 (by decide) (by decide), h.2.2.2.1, h.2.2.2.2.1, h.2.2.2.2.2⟩

/-- C8: when the total-difficulty read yields no bytes, which the decoder rejects,
then whatever the header record, the receipts record and the signatures are,
createReplica returns that decode error and no replica, having performed the
total-difficulty read and nothing else (no header read, no receipts read, no
sender recovery), and createBlockReplica sends no event. -/
theorem createReplica_missing_td (E : Externals) (bc : BlockChain) (block : Block)
    (config : ChainConfig) (stateSpecimen : StateSpecimen) (err : GoError)
    (hread : bc.db.ReadTdRLP (block.Hash E) block.NumberU64 = [])
    (hdec : E.decodeTd [] = .error err) :
    (createReplica E bc block config stateSpecimen).result = .error err ∧
      (createReplica E bc block config stateSpecimen).accesses =
        [Access.readTd (block.Hash E) block.NumberU64] ∧
      createBlockReplica E bc block config stateSpecimen = (bc, some err) := by
  have hr : (createReplica E bc block config stateSpecimen).result = .error err := by
    unfold createReplica
    simp only [hread, hdec]
  refine ⟨hr, ?_, ?_⟩
  · unfold createReplica
    simp only [hread, hdec]
  · simp only [createBlockReplica, hr]

/-- Witness for createReplica_missing_td: the sample block over a store without
its total-difficulty record. -/
theorem createReplica_missing_td_witness :
    (createReplica demo (demoChain (demoDb [] [3, 4] [192, 1]) 1) (demoBlock [⟨[1, 77]⟩])
        ⟨1, []⟩ ⟨[]⟩).result = .error "EOF" ∧
      (createReplica demo (demoChain (demoDb [] [3, 4] [192, 1]) 1) (demoBlock [⟨[1, 77]⟩])
        ⟨1, []⟩ ⟨[]⟩).accesses = [Access.readTd 7 3] ∧
      createBlockReplica demo (demoChain (demoDb [] [3, 4] [192, 1]) 1)
          (demoBlock [⟨[1, 77]⟩]) ⟨1, []⟩ ⟨[]⟩
        = (demoChain (demoDb [] [3, 4] [192, 1]) 1, some "EOF") :=
  createReplica_missing_td demo (demoChain (demoDb [] [3, 4] [192, 1]) 1)
    (demoBlock [⟨[1, 77]⟩]) ⟨1, []⟩ ⟨[]⟩ "EOF" rfl rfl

/-- C9 as stated fails: the record stored under the key of the sample block
(number 3, hash 7) decodes to a header of number 5 and hash 9, and createReplica
returns a replica that carries it under the hash 7. -/
theorem createReplica_header_identity_counterexample :
    ∃ r, (createReplica demo (demoChain (demoDb [9] [5, 4] [192, 1]) 1)
        (demoBlock [⟨[1, 77]⟩]) ⟨1, []⟩ ⟨[]⟩).result = .ok r ∧
      r.Hash = (demoBlock [⟨[1, 77]⟩]).Hash demo ∧
      demo.headerHash r.Header ≠ r.Hash ∧
      r.Header.Number ≠ (demoBlock [⟨[1, 77]⟩]).Number := by
  refine ⟨_, rfl, rfl, ?_, ?_⟩ <;> decide

/-- C9, amended: in every returned replica Hash is the hash of the block and
Header is what the header record stored under the hash and number of the
block decodes to; when that is the header of the block, its hash is the Hash
of the replica and its number is the number of the block. -/
theorem createReplica_header_from_store (E : Externals) (bc : BlockChain) (block : Block)
    (config : ChainConfig) (stateSpecimen : StateSpecimen) (r : ExportBlockReplica)
    (h : (createReplica E bc block config stateSpecimen).result = .ok r) :
    r.Hash = block.Hash E ∧
      E.decodeHeader (bc.db.ReadHeaderRLP (block.Hash E) block.NumberU64) = .ok r.Header ∧
      (r.Header = block.header →
        E.headerHash r.Header = r.Hash ∧ r.Header.Number = block.Number) := by
  obtain ⟨td, header, senders, _, hh, _, rfl⟩ :=
    createReplica_ok E bc block config stateSpecimen r h
  refine ⟨rfl, hh, ?_⟩
  intro heq
  simp only at heq
  subst heq
  exact ⟨rfl, rfl⟩

/-- Witness for createReplica_header_from_store: the store holds the header of
the sample block. -/
theorem createReplica_header_from_store_witness :
    ∃ r, (createReplica demo (demoChain (demoGoodDb 1) 1) (demoBlock [⟨[1, 77]⟩])
        ⟨1, []⟩ ⟨[]⟩).result = .ok r ∧
      r.Hash = 7 ∧ demo.decodeHeader [3, 4] = .ok r.Header ∧
      demo.headerHash r.Header = r.Hash ∧ r.Header.Number = 3 :=
  have h := createReplica_header_from_store demo (demoChain (demoGoodDb 1) 1)
    (demoBlock [⟨[1, 77]⟩]) ⟨1, []⟩ ⟨[]⟩ _ rfl
  ⟨_, rfl, h.1, h.2.1, (h.2.2 rfl).1, (h.2.2 rfl).2⟩

end BlockReplica
